import Mathlib

/-!
# SolAnchorGen — shallow embedding and verification

A shallow embedding of the SolAnchorGen CLI scaffolder: the template
registry (`src/src/templates/registry.ts`), the six template generators,
the input validator (`src/utils/validator.ts`), the `new` command pipeline
(`src/commands/new.ts`), the CLI option wiring (`src/index.ts`) and the
workspace-generation orchestrator (`src/generator/workspace.ts`).

Conventions of the embedding:
* JavaScript's dynamically typed option values are modelled by `JsValue`
  with JS truthiness, `||`, and `Number(...)` coercion (restricted to the
  integer literals this CLI handles).
* File-system paths are lists of components; Node's `resolve` is modelled
  for the separator-free relative segments the source passes to it.
* The file system is a pure value (directory list + file map) and every
  fallible primitive is driven by a `World` of injected outcomes, so that
  rollback and error-propagation behaviour can be quantified over all
  fault schedules.
* The long static template payloads (Rust / TypeScript / Markdown bodies)
  are spec-excluded opaque text (spec §1); their content definitions keep
  the exact data the source interpolates into them (project name,
  program name, resolved decimals) and abbreviate the surrounding fixed
  boilerplate to short tags.  The staking `lib.rs` head, `Anchor.toml`
  and `package.json` are transcribed in full because claims inspect them.
-/

namespace SolAnchorGen

/-! ## JavaScript value model -/

/-- A JavaScript value as it appears in the CLI's loosely typed option
plumbing: `undefined`, `null`, booleans, (integer) numbers, `NaN`, and
strings. -/
inductive JsValue where
  | undefined : JsValue
  | null : JsValue
  | bool (b : Bool) : JsValue
  | num (n : Int) : JsValue
  | nan : JsValue
  | str (s : String) : JsValue
deriving DecidableEq, Repr

/-- JS truthiness: `undefined`, `null`, `false`, `0`, `NaN` and `""` are
falsy; everything else is truthy. -/
def truthy : JsValue → Bool
  | .undefined => false
  | .null => false
  | .bool b => b
  | .num n => n != 0
  | .nan => false
  | .str s => s != ""

/-- JS `a || b`: the first operand when truthy, else the second. -/
def jsOr (a b : JsValue) : JsValue :=
  if truthy a then a else b

/-- Whitespace as JS `trim` treats it (the subset that can reach this
CLI: blank, tab, newline, carriage return). -/
def jsWhitespace (c : Char) : Bool :=
  c == ' ' || c == '\t' || c == '\n' || c == '\r'

/-- Parse the decimal digits of a string; `none` when a non-digit
appears. -/
def digitsToNat : List Char → Option Nat
  | [] => some 0
  | c :: cs =>
    if c.isDigit then
      match digitsToNat cs with
      | some n => some (n * 10 + (c.toNat - '0'.toNat))
      | none => none
    else none

/-- Value of a digit string read left to right (the accumulator form of
`digitsToNat`, used to define string-to-number conversion). -/
def digitsValue (acc : Nat) : List Char → Option Nat
  | [] => some acc
  | c :: cs => if c.isDigit then digitsValue (acc * 10 + (c.toNat - '0'.toNat)) cs else none

/-- JS `Number(s)` on the integer-literal strings this CLI handles:
an all-whitespace string is `0`, optionally signed digit strings are
their value, anything else is `NaN` (`none`). -/
def strToNumber (s : String) : Option Int :=
  if s.data.all jsWhitespace then some 0
  else
    match s.data with
    | '-' :: rest => (digitsValue 0 rest).map (fun n => -(n : Int))
    | l => (digitsValue 0 l).map (fun n => (n : Int))

/-- JS `ToNumber` on a `JsValue` (`none` encodes `NaN`). -/
def jsToNumber : JsValue → Option Int
  | .undefined => none
  | .null => some 0
  | .bool b => some (if b then 1 else 0)
  | .num n => some n
  | .nan => none
  | .str s => strToNumber s

/-- JS `Number(value)` as a value: a number, or `NaN`. -/
def jsNumberCoerce (v : JsValue) : JsValue :=
  match jsToNumber v with
  | some n => .num n
  | none => .nan

/-- JS `Boolean(value)`. -/
def jsBooleanCoerce (v : JsValue) : JsValue :=
  .bool (truthy v)

/-- JS relational `v >= n` via `ToNumber` (false on `NaN`). -/
def jsGe (v : JsValue) (n : Int) : Bool :=
  match jsToNumber v with
  | some m => decide (n ≤ m)
  | none => false

/-- JS relational `v <= n` via `ToNumber` (false on `NaN`). -/
def jsLe (v : JsValue) (n : Int) : Bool :=
  match jsToNumber v with
  | some m => decide (m ≤ n)
  | none => false

/-- JS template-literal display of a value (`String(v)`). -/
def jsDisplay : JsValue → String
  | .undefined => "undefined"
  | .null => "null"
  | .bool b => if b then "true" else "false"
  | .num n => toString n
  | .nan => "NaN"
  | .str s => s

/-! ## Option maps (plain JS objects keyed by option name) -/

/-- A resolved option map: ordered association list from option name to
value, as produced by `extractTemplateOptions`. -/
abbrev OptionMap : Type := List (String × JsValue)

/-- Property read `m[k]`: `undefined` when the key is absent. -/
def omGet (m : OptionMap) (k : String) : JsValue :=
  match m.find? (fun p => p.1 == k) with
  | some p => p.2
  | none => .undefined

/-- Property read as an `Option` (distinguishes a missing key from a
stored value, mirroring the `value !== undefined` membership test on
objects that never store `undefined`). -/
def omGetOpt (m : OptionMap) (k : String) : Option JsValue :=
  (m.find? (fun p => p.1 == k)).map (fun p => p.2)

/-- Property write `m[k] = v` (replaces an existing binding, else
appends, preserving JS object key order). -/
def omSet (m : OptionMap) (k : String) (v : JsValue) : OptionMap :=
  if m.any (fun p => p.1 == k) then
    m.map (fun p => if p.1 == k then (k, v) else p)
  else
    m ++ [(k, v)]

/-! ## Paths and the file-system value -/

/-- An absolute path, as the list of its components. -/
abbrev Path : Type := List String

/-- Node's `resolve(base, seg)` for one relative segment.  Every segment
the source passes (`'programs'`, `'tests'`, `'app'`, `'src'`,
`'lib.rs'`, `'Anchor.toml'`, `'package.json'`, the project name, and
`` `${projectName}.ts` ``) is separator-free, so resolution appends one
component, with `..`, `.` and the empty segment normalized away. -/
def resolveSeg (base : Path) (seg : String) : Path :=
  if seg == ".." then List.dropLast base
  else if seg == "." || seg == "" then base
  else base ++ [seg]

/-- All non-empty prefixes of a path: the ancestor chain `mkdir -p`
creates. -/
def prefixesOf (p : Path) : List Path :=
  (List.range p.length).map (fun i => p.take (i + 1))

/-- The file system as a value: the set of directories and the map from
file path to file content. -/
structure FS where
  dirs : List Path
  files : List (Path × String)
deriving DecidableEq

/-- The empty file system. -/
def emptyFS : FS := ⟨[], []⟩

/-- `pathExists`: a non-throwing probe for a directory or file at `p`
(`fs-writer.ts` `pathExists` / `existsSync`). -/
def pathExists (fs : FS) (p : Path) : Bool :=
  fs.dirs.any (fun d => d == p) || fs.files.any (fun f => f.1 == p)

/-- Content of the file at `p`, if one was written. -/
def lookupFile (fs : FS) (p : Path) : Option String :=
  (fs.files.find? (fun f => f.1 == p)).map (fun f => f.2)

/-- Effect of a successful `mkdir -p p`: the path and all its ancestors
become directories. -/
def mkdirRecursive (fs : FS) (p : Path) : FS :=
  { fs with dirs := prefixesOf p ++ fs.dirs }

/-- Effect of a successful `writeFile(p, c)`: parent directories are
created, then the file is written, overwriting any previous content. -/
def writeFS (fs : FS) (p : Path) (c : String) : FS :=
  { dirs := prefixesOf (List.dropLast p) ++ fs.dirs,
    files := (p, c) :: fs.files.filter (fun f => f.1 != p) }

/-- `p` lies inside `root`: `root` is an initial segment of `p`. -/
def withinRoot (root p : Path) : Prop :=
  ∃ rest : List String, p = root ++ rest

/-- Effect of a successful `rmSync(p, { recursive: true, force: true })`:
every directory and file at or below `p` is removed. -/
def removeTree (fs : FS) (p : Path) : FS :=
  { dirs := fs.dirs.filter (fun d => d.take p.length != p),
    files := fs.files.filter (fun f => f.1.take p.length != p) }

/-! ## Template data model (`src/src/templates/registry.ts`, `generator.ts`) -/

/-- The primitive type tag of a template option
(`type: 'string' | 'number' | 'boolean'`). -/
inductive OptionKind where
  | string : OptionKind
  | number : OptionKind
  | boolean : OptionKind
deriving DecidableEq, Repr

/-- `TemplateOption` (registry.ts lines 4-11): a configurable parameter a
template accepts. -/
structure TemplateOption where
  name : String
  flag : String
  description : String
  type : OptionKind
  defaultValue : Option JsValue
  validate : Option (JsValue → Bool)

/-- `GeneratorContext` (generator.ts): the inputs driving one generation
run. -/
structure GeneratorContext where
  projectName : String
  projectPath : Path
  options : OptionMap
deriving DecidableEq

/-- `GeneratedFile` (generator.ts): a file path plus its full content. -/
structure GeneratedFile where
  path : Path
  content : String
deriving DecidableEq

/-- A dependency map: package name to version-constraint string. -/
abbrev Dependencies : Type := List (String × String)

/-- The `TemplateGenerator` capability interface: content assembly plus
the two dependency maps (generator.ts lines 925-947). -/
structure TemplateGenerator where
  generate : GeneratorContext → List GeneratedFile
  getDependencies : GeneratorContext → Dependencies
  getDevDependencies : GeneratorContext → Dependencies

/-- `Template` (registry.ts lines 25-31): registry key, display data,
declared options and the owned generator. -/
structure Template where
  id : String
  name : String
  description : String
  options : List TemplateOption
  generator : TemplateGenerator

/-- `TemplateRegistry` (registry.ts lines 37-94): a `Map` from identifier
to template; JS `Map` preserves insertion order, so the catalog is an
ordered list keyed by `id`. -/
structure TemplateRegistry where
  templates : List Template

/-- The empty registry (`new TemplateRegistry()`). -/
def TemplateRegistry.empty : TemplateRegistry := ⟨[]⟩

/-- `hasTemplate(id)` (registry.ts lines 77-79). -/
def hasTemplate (reg : TemplateRegistry) (id : String) : Bool :=
  reg.templates.any (fun t => t.id == id)

/-- `registerTemplate(template)` (registry.ts lines 43-48): throws when
the identifier is already present, otherwise inserts at the end.  The
returned pair is the registry state after the call together with the
thrown error message, if any; on a throw the map was not touched. -/
def registerTemplate (reg : TemplateRegistry) (t : Template) :
    TemplateRegistry × Option String :=
  if hasTemplate reg t.id then
    (reg, some ("Template with id \"" ++ t.id ++ "\" is already registered"))
  else
    (⟨reg.templates ++ [t]⟩, none)

/-- `getTemplate(id)` (registry.ts lines 54-56): `undefined` when the
identifier is unknown. -/
def getTemplate (reg : TemplateRegistry) (id : String) : Option Template :=
  reg.templates.find? (fun t => t.id == id)

/-- `getAllTemplates()` (registry.ts lines 61-63): insertion order. -/
def getAllTemplates (reg : TemplateRegistry) : List Template :=
  reg.templates

/-- `getTemplateOptions(id)` (registry.ts lines 69-72): empty list for an
unknown identifier. -/
def getTemplateOptions (reg : TemplateRegistry) (id : String) : List TemplateOption :=
  match getTemplate reg id with
  | some t => t.options
  | none => []

/-! ## Shared generator helpers (`generator.ts` `BaseTemplateGenerator`) -/

/-- `BaseTemplateGenerator.getDependencies` (generator.ts lines 959-964):
default runtime dependencies. -/
def baseGetDependencies (_ctx : GeneratorContext) : Dependencies :=
  [("@coral-xyz/anchor", "^0.29.0"), ("@solana/web3.js", "^1.87.0")]

/-- `BaseTemplateGenerator.getDevDependencies` (generator.ts lines
969-977): default development dependencies. -/
def baseGetDevDependencies (_ctx : GeneratorContext) : Dependencies :=
  [("@types/node", "^20.0.0"), ("typescript", "^5.3.0"), ("ts-node", "^10.9.0"),
   ("chai", "^4.3.0"), ("@types/chai", "^4.3.0")]

/-- The runtime dependency map shared verbatim by all six concrete
generators (each overrides `getDependencies` with these three pins). -/
def anchorSplDependencies (_ctx : GeneratorContext) : Dependencies :=
  [("@coral-xyz/anchor", "^0.29.0"), ("@solana/web3.js", "^1.87.0"),
   ("@solana/spl-token", "^0.3.9")]

/-- The `projectName.replace` call with the global hyphen regex: every
hyphen becomes an underscore (the derived program identifier). -/
def dashToUnderscore (s : String) : String :=
  String.mk (s.data.map (fun c => if c = '-' then '_' else c))

/-- `word.charAt(0).toUpperCase() + word.slice(1)`. -/
def capitalizeWord (w : String) : String :=
  match w.data with
  | [] => ""
  | c :: cs => String.mk (c.toUpper :: cs)

/-- `toPascalCase` (staking generator lines 923-928): split on `_`,
capitalize each word, join. -/
def toPascalCase (s : String) : String :=
  String.join ((s.splitOn "_").map capitalizeWord)

/-! ## The six generators' emitted paths

Every generator emits the same six paths, each built by the same
`resolve` expressions in its source file. -/

/-- `resolve(projectPath, 'programs', projectName, 'src', 'lib.rs')`. -/
def programLibPath (ctx : GeneratorContext) : Path :=
  resolveSeg (resolveSeg (resolveSeg (resolveSeg ctx.projectPath "programs") ctx.projectName) "src") "lib.rs"

/-- `resolve(projectPath, 'programs', projectName, 'Cargo.toml')`. -/
def programCargoPath (ctx : GeneratorContext) : Path :=
  resolveSeg (resolveSeg (resolveSeg ctx.projectPath "programs") ctx.projectName) "Cargo.toml"

/-- ``resolve(projectPath, 'tests', `${projectName}.ts`)``. -/
def testsFilePath (ctx : GeneratorContext) : Path :=
  resolveSeg (resolveSeg ctx.projectPath "tests") (ctx.projectName ++ ".ts")

/-- `resolve(projectPath, 'app', 'src', 'index.ts')`. -/
def sdkFilePath (ctx : GeneratorContext) : Path :=
  resolveSeg (resolveSeg (resolveSeg ctx.projectPath "app") "src") "index.ts"

/-- `resolve(projectPath, 'README.md')`. -/
def readmeFilePath (ctx : GeneratorContext) : Path :=
  resolveSeg ctx.projectPath "README.md"

/-- `resolve(projectPath, 'tsconfig.json')`. -/
def tsconfigFilePath (ctx : GeneratorContext) : Path :=
  resolveSeg ctx.projectPath "tsconfig.json"

/-! ## Template content

The multi-hundred-line static template payloads are opaque text the spec
excludes from scope (§1: "the specific static content of each of the six
generated templates (irrelevant boilerplate text)").  Each content
definition below keeps the exact data the source interpolates into the
payload — project name, derived program name, PascalCase program name,
resolved decimals — and stands in for the surrounding fixed boilerplate
with a `payloadTag` marker.  The staking `lib.rs` head is transcribed
verbatim because claims inspect its `TOKEN_DECIMALS` constant. -/

/-- Abbreviation marker for a spec-excluded static payload together with
the exact values interpolated into it. -/
def payloadTag (t : String) (parts : List String) : String :=
  "<" ++ t ++ ":" ++ String.intercalate "|" parts ++ ">"

/-- The shared `Cargo.toml` template literal (identical in all six
generators up to the description line), transcribed in full. -/
def cargoTomlText (programName desc : String) : String :=
  "[package]\nname = \"" ++ programName ++ "\"\nversion = \"0.1.0\"\ndescription = \"" ++
  desc ++ "\"\nedition = \"2021\"\n\n[lib]\ncrate-type = [\"cdylib\", \"lib\"]\nname = \"" ++
  programName ++ "\"\n\n[features]\nno-entrypoint = []\nno-idl = []\nno-log-ix-name = []\ncpi = [\"no-entrypoint\"]\ndefault = []\n\n[dependencies]\nanchor-lang = \"0.29.0\"\nanchor-spl = \"0.29.0\"\n"

/-- The `tsconfig.json` template literal (identical in all six
generators), abbreviated: a fixed payload with no interpolation. -/
def tsconfigText : String :=
  payloadTag "tsconfig.json" []

/-- The `decimals` local of the staking generator (generator.ts line 39
and again at lines 489 and 772): `options.tokenDecimals || 9`. -/
def stakingDecimals (options : OptionMap) : JsValue :=
  jsOr (omGet options "tokenDecimals") (.num 9)

/-- Head of the staking `lib.rs` template (generator.ts lines 41-46),
verbatim up to the interpolated decimals value (braces written as
escapes). -/
def stakingLibPre : String :=
  "use anchor_lang::prelude::*;\n" ++
  "use anchor_spl::token::\x7bself, Mint, Token, TokenAccount, Transfer\x7d;\n\n" ++
  "declare_id!(\"Fg6PaFpoGXkYsidMpWTK6W2BeZ7FEfcYkg476zPFsLnS\");\n\n" ++
  "const TOKEN_DECIMALS: u8 = "

/-- Staking `lib.rs` between the decimals value and the interpolated
program-module name (generator.ts lines 46-50), verbatim. -/
def stakingLibMid : String :=
  ";\nconst REWARD_RATE_PER_SECOND: u64 = 1; // Rewards per second per staked token\n\n" ++
  "#[program]\npub mod "

/-- Remainder of the staking `lib.rs` template after the module name: a
fixed Rust payload with no further interpolation (generator.ts lines
50-438), abbreviated. -/
def stakingLibTail : String :=
  " \x7b\n" ++ payloadTag "staking/lib.rs body" []

/-- Content of the staking `lib.rs` as a function of the interpolated
values. -/
def stakingLibText (programName decimalsDisplay : String) : String :=
  stakingLibPre ++ decimalsDisplay ++ stakingLibMid ++ programName ++ stakingLibTail

/-- `StakingGenerator.generateProgramCode` (generator.ts lines 36-448). -/
def stakingGenerateProgramCode (ctx : GeneratorContext) : GeneratedFile :=
  let programName := dashToUnderscore ctx.projectName
  let decimals := stakingDecimals ctx.options
  { path := programLibPath ctx,
    content := stakingLibText programName (jsDisplay decimals) }

/-- `StakingGenerator.generateCargoToml` (generator.ts lines 453-481). -/
def stakingGenerateCargoToml (ctx : GeneratorContext) : GeneratedFile :=
  let programName := dashToUnderscore ctx.projectName
  { path := programCargoPath ctx,
    content := cargoTomlText programName "Token staking program generated with SolAnchorGen" }

/-- `StakingGenerator.generateTests` (generator.ts lines 486-610): the
payload interpolates the PascalCase program name, the program name, the
project name and the resolved decimals. -/
def stakingGenerateTests (ctx : GeneratorContext) : GeneratedFile :=
  let programName := dashToUnderscore ctx.projectName
  let decimals := stakingDecimals ctx.options
  { path := testsFilePath ctx,
    content := payloadTag "staking/tests"
      [ctx.projectName, programName, toPascalCase programName, jsDisplay decimals] }

/-- `StakingGenerator.generateSdk` (generator.ts lines 615-765): a fixed
payload with no interpolation. -/
def stakingGenerateSdk (ctx : GeneratorContext) : GeneratedFile :=
  { path := sdkFilePath ctx, content := payloadTag "staking/sdk" [] }

/-- `StakingGenerator.generateReadme` (generator.ts lines 770-895): the
payload interpolates the project name and the resolved decimals. -/
def stakingGenerateReadme (ctx : GeneratorContext) : GeneratedFile :=
  let decimals := stakingDecimals ctx.options
  { path := readmeFilePath ctx,
    content := payloadTag "staking/README" [ctx.projectName, jsDisplay decimals] }

/-- `StakingGenerator.generateTsConfig` (generator.ts lines 900-918). -/
def stakingGenerateTsConfig (ctx : GeneratorContext) : GeneratedFile :=
  { path := tsconfigFilePath ctx, content := tsconfigText }

/-- `StakingGenerator` (src/src/templates/staking/generator.ts):
`generate` returns the six files in declaration order; runtime
dependencies are overridden, dev dependencies inherited from the base. -/
def stakingGenerator : TemplateGenerator where
  generate := fun ctx =>
    [stakingGenerateProgramCode ctx, stakingGenerateCargoToml ctx,
     stakingGenerateTests ctx, stakingGenerateSdk ctx,
     stakingGenerateReadme ctx, stakingGenerateTsConfig ctx]
  getDependencies := anchorSplDependencies
  getDevDependencies := baseGetDevDependencies

/-- Builds the six generated files of one of the five non-staking
generators, whose payloads interpolate only the project name, the
program name and its PascalCase form (tag `t` names the template). -/
def standardGenerate (t : String) (ctx : GeneratorContext) (cargoDesc : String) :
    List GeneratedFile :=
  let programName := dashToUnderscore ctx.projectName
  [ { path := programLibPath ctx,
      content := payloadTag (t ++ "/lib.rs") [programName] },
    { path := programCargoPath ctx, content := cargoTomlText programName cargoDesc },
    { path := testsFilePath ctx,
      content := payloadTag (t ++ "/tests")
        [ctx.projectName, programName, toPascalCase programName] },
    { path := sdkFilePath ctx, content := payloadTag (t ++ "/sdk") [] },
    { path := readmeFilePath ctx, content := payloadTag (t ++ "/README") [ctx.projectName] },
    { path := tsconfigFilePath ctx, content := tsconfigText } ]

/-- `NftMintingGenerator` (nft-minting/generator.ts): overrides both
dependency maps; dev dependencies spread the base map and add mocha. -/
def nftMintingGenerator : TemplateGenerator where
  generate := fun ctx =>
    standardGenerate "nft-minting" ctx "NFT minting program generated with SolAnchorGen"
  getDependencies := anchorSplDependencies
  getDevDependencies := fun ctx =>
    baseGetDevDependencies ctx ++ [("@types/mocha", "^10.0.0"), ("mocha", "^10.2.0")]

/-- `EscrowGenerator` (escrow/generator.ts). -/
def escrowGenerator : TemplateGenerator where
  generate := fun ctx =>
    standardGenerate "escrow" ctx "Escrow program generated with SolAnchorGen"
  getDependencies := anchorSplDependencies
  getDevDependencies := baseGetDevDependencies

/-- `GovernanceGenerator` (governance/generator.ts). -/
def governanceGenerator : TemplateGenerator where
  generate := fun ctx =>
    standardGenerate "governance" ctx "Governance program generated with SolAnchorGen"
  getDependencies := anchorSplDependencies
  getDevDependencies := baseGetDevDependencies

/-- `MarketplaceGenerator` (marketplace/generator.ts). -/
def marketplaceGenerator : TemplateGenerator where
  generate := fun ctx =>
    standardGenerate "marketplace" ctx "NFT marketplace program generated with SolAnchorGen"
  getDependencies := anchorSplDependencies
  getDevDependencies := baseGetDevDependencies

/-- `VaultGenerator` (vault/generator.ts). -/
def vaultGenerator : TemplateGenerator where
  generate := fun ctx =>
    standardGenerate "vault" ctx "Vault program generated with SolAnchorGen"
  getDependencies := anchorSplDependencies
  getDevDependencies := baseGetDevDependencies

/-! ## Registry population (`src/src/templates/index.ts`) -/

/-- The staking template's `tokenDecimals` option descriptor
(templates/index.ts lines 30-37), with its 0-18 validity predicate. -/
def tokenDecimalsOption : TemplateOption where
  name := "tokenDecimals"
  flag := "token-decimals"
  description := "Token decimals (default: 9)"
  type := .number
  defaultValue := some (.num 9)
  validate := some (fun v => jsGe v 0 && jsLe v 18)

/-- The six template descriptors, in registration order. -/
def nftMintingTemplate : Template :=
  ⟨"nft-minting", "NFT Minting", "Complete NFT collection with metadata", [], nftMintingGenerator⟩

/-- Staking template descriptor (templates/index.ts lines 25-40). -/
def stakingTemplate : Template :=
  ⟨"staking", "Token Staking", "Stake tokens and earn rewards", [tokenDecimalsOption],
   stakingGenerator⟩

/-- Escrow template descriptor. -/
def escrowTemplate : Template :=
  ⟨"escrow", "Escrow", "Secure peer-to-peer token swaps", [], escrowGenerator⟩

/-- Governance template descriptor. -/
def governanceTemplate : Template :=
  ⟨"governance", "Governance", "DAO voting and proposal system", [], governanceGenerator⟩

/-- Marketplace template descriptor. -/
def marketplaceTemplate : Template :=
  ⟨"marketplace", "Marketplace", "Buy/sell NFTs with royalties", [], marketplaceGenerator⟩

/-- Vault template descriptor. -/
def vaultTemplate : Template :=
  ⟨"vault", "Vault", "Secure token custody with multi-sig", [], vaultGenerator⟩

/-- `createTemplateRegistry()` (templates/index.ts lines 12-79): starts
from the empty registry and registers the six templates in order (all
identifiers are fresh, so no registration throws). -/
def createTemplateRegistry : TemplateRegistry :=
  let r1 := (registerTemplate TemplateRegistry.empty nftMintingTemplate).1
  let r2 := (registerTemplate r1 stakingTemplate).1
  let r3 := (registerTemplate r2 escrowTemplate).1
  let r4 := (registerTemplate r3 governanceTemplate).1
  let r5 := (registerTemplate r4 marketplaceTemplate).1
  (registerTemplate r5 vaultTemplate).1

/-- `defaultRegistry` (templates/index.ts line 84). -/
def defaultRegistry : TemplateRegistry := createTemplateRegistry

/-! ## Validator (`src/utils/validator.ts`) -/

/-- The `true | string` result union of the validator methods. -/
inductive ValidationResult where
  | ok : ValidationResult
  | err (msg : String) : ValidationResult
deriving DecidableEq, Repr

/-- One character of the name regex class `[a-zA-Z0-9_-]`. -/
def validNameChar (c : Char) : Bool :=
  c.isAlphanum || c == '-' || c == '_'

/-- The leading-character regex `[a-zA-Z]` applied to the head of the
string. -/
def startsWithLetter (s : String) : Bool :=
  match s.data with
  | [] => false
  | c :: _ => c.isAlpha

/-- JS `toLowerCase` on the ASCII names this validator compares. -/
def toLowerString (s : String) : String :=
  String.mk (s.data.map Char.toLower)

/-- The reserved names of validator.ts line 135. -/
def reservedNames : List String :=
  ["node_modules", "test", "dist", "build", ".git"]

/-- `Validator.validateProjectName` (validator.ts lines 113-147).  The
`!name || name.trim().length === 0` guard is "every character is
whitespace" (vacuously true of the empty string); the pattern test
`^[a-zA-Z0-9_-]+$` reduces to "every character is in the class" since
the name is non-empty past the first guard; the existence probe is
`existsSync(resolve(process.cwd(), name))`. -/
def Validator.validateProjectName (fs : FS) (cwd : Path) (name : String) :
    ValidationResult :=
  if name.data.all jsWhitespace then
    .err "Project name cannot be empty"
  else if !(name.data.all validNameChar) then
    .err "Project name can only contain letters, numbers, hyphens, and underscores"
  else if !(startsWithLetter name) then
    .err "Project name must start with a letter"
  else if name.length > 50 then
    .err "Project name must be 50 characters or less"
  else if reservedNames.contains (toLowerString name) then
    .err ("Project name \"" ++ name ++ "\" is reserved and cannot be used")
  else if pathExists fs (resolveSeg cwd name) then
    .err ("Directory \"" ++ name ++ "\" already exists in the current location")
  else .ok

/-- `Validator.validateTemplateName` (validator.ts lines 153-171). -/
def Validator.validateTemplateName (name : String) (reg : TemplateRegistry) :
    ValidationResult :=
  if name.data.all jsWhitespace then
    .err "Template name cannot be empty"
  else
    match getTemplate reg name with
    | none =>
      .err ("Template \"" ++ name ++ "\" not found. Available templates: " ++
        String.intercalate ", " ((getAllTemplates reg).map Template.id))
    | some _ => .ok

/-- `Validator.validateOptionValue` (validator.ts lines 177-217): the
required check, the per-type check (`Number(value)` must not be `NaN`
for numbers), then the option's custom predicate. -/
def Validator.validateOptionValue (value : JsValue) (o : TemplateOption) :
    ValidationResult :=
  if value == .undefined || value == .null then
    .err ("Value for option \"" ++ o.name ++ "\" is required")
  else
    let typeErr : Option String :=
      match o.type with
      | .string =>
        match value with
        | .str s =>
          if s.data.all jsWhitespace then some ("Option \"" ++ o.name ++ "\" cannot be empty")
          else none
        | _ => some ("Option \"" ++ o.name ++ "\" must be a string")
      | .number =>
        match jsToNumber value with
        | none => some ("Option \"" ++ o.name ++ "\" must be a valid number")
        | some _ => none
      | .boolean =>
        match value with
        | .bool _ => none
        | _ => some ("Option \"" ++ o.name ++ "\" must be a boolean")
    match typeErr with
    | some m => .err m
    | none =>
      match o.validate with
      | some f => if f value then .ok else .err ("Invalid value for option \"" ++ o.name ++ "\"")
      | none => .ok

/-! ## The `new` command (`src/commands/new.ts`, `src/index.ts`) -/

/-- `extractTemplateOptions` (new.ts lines 139-166): for each declared
option, read the camelCase key, falling back (via JS `||`) to the
kebab-case key; skip the option when the result is `undefined`,
otherwise coerce by the declared type and store under the option
name. -/
def extractTemplateOptions (commandOptions : String → JsValue)
    (templateOptions : List TemplateOption) : OptionMap :=
  templateOptions.foldl
    (fun result o =>
      let value := jsOr (commandOptions o.name) (commandOptions o.flag)
      if value != .undefined then
        let coerced :=
          match o.type with
          | .number => jsNumberCoerce value
          | .boolean => jsBooleanCoerce value
          | .string => value
        omSet result o.name coerced
      else result)
    []

/-- The parsed command options of `sol-anchor-gen new` (index.ts lines
45-52): Commander stores `--template` under `template` and
`--token-decimals` under the camelCase key `tokenDecimals`, whose
declared default is the string `'9'`. -/
def cliCommandOptions (template : String) (tokenDecimalsRaw : Option String) :
    String → JsValue :=
  fun key =>
    if key == "template" then .str template
    else if key == "tokenDecimals" then .str (tokenDecimalsRaw.getD "9")
    else .undefined

/-- The per-option validation loop of `newCommand` (new.ts lines 60-71):
options absent from the extracted map are skipped, present values are
checked with `validateOptionValue`; the first failure is thrown. -/
def validateExtractedOptions (m : OptionMap) :
    List TemplateOption → Option String
  | [] => none
  | o :: rest =>
    match omGetOpt m o.name with
    | none => validateExtractedOptions m rest
    | some v =>
      match Validator.validateOptionValue v o with
      | .err msg => some msg
      | .ok => validateExtractedOptions m rest

/-! ## File-system primitives under fault injection -/

/-- The outcome oracle for one generation request: for every fallible
primitive, either success (`none`) or the message of the error it
throws.  `installResult` covers both the pnpm-missing check and the
spawned process (`package-manager.ts`); `rmResult` is the `rmSync`
call of the rollback. -/
structure World where
  ensureDirResult : Path → Option String
  writeResult : Path → Option String
  installResult : Option String
  rmResult : Option String

/-- A world in which every primitive succeeds. -/
def allOkWorld : World :=
  ⟨fun _ => none, fun _ => none, none, none⟩

/-- `FileSystemWriter.ensureDirectory` (fs-writer.ts lines 90-100):
`mkdir -p`, wrapping failures. -/
def fsEnsureDirectory (w : World) (p : Path) (fs : FS) : Option String × FS :=
  match w.ensureDirResult p with
  | some e => (some e, fs)
  | none => (none, mkdirRecursive fs p)

/-- `FileSystemWriter.writeFile` (fs-writer.ts lines 30-45): ensure the
parent directory, then write (overwriting), wrapping failures.  The
oracle covers both the internal `ensureDirectory` and the write. -/
def fsWriteFile (w : World) (p : Path) (c : String) (fs : FS) : Option String × FS :=
  match w.writeResult p with
  | some e => (some e, fs)
  | none => (none, writeFS fs p c)

/-! ## Workspace generator (`src/generator/workspace.ts`) -/

/-- `WorkspaceConfig` (workspace.ts lines 12-17). -/
structure WorkspaceConfig where
  projectName : String
  projectPath : Path
  template : Template
  options : OptionMap

/-- The generator context built by `generate` and again by
`generatePackageJson` (workspace.ts lines 52-56 and 146-150): the same
three fields of the config. -/
def mkGeneratorContext (cfg : WorkspaceConfig) : GeneratorContext :=
  ⟨cfg.projectName, cfg.projectPath, cfg.options⟩

/-- Sequentially ensure a list of directories, stopping at the first
failure. -/
def ensureDirs (w : World) : List Path → FS → Option String × FS
  | [], fs => (none, fs)
  | d :: rest, fs =>
    match fsEnsureDirectory w d fs with
    | (some e, fs') => (some e, fs')
    | (none, fs') => ensureDirs w rest fs'

/-- `WorkspaceGenerator.createDirectoryStructure` (workspace.ts lines
86-99): the destination root and its five fixed subdirectories. -/
def createDirectoryStructure (w : World) (path : Path) (fs : FS) :
    Option String × FS :=
  ensureDirs w
    [path, resolveSeg path "programs", resolveSeg path "tests",
     resolveSeg path "app", resolveSeg path "migrations", resolveSeg path "target"]
    fs

/-- `WorkspaceGenerator.generateFiles` (workspace.ts lines 104-108):
write every generated file in order, stopping at the first failure. -/
def writeGeneratedFiles (w : World) : List GeneratedFile → FS → Option String × FS
  | [], fs => (none, fs)
  | f :: rest, fs =>
    match fsWriteFile w f.path f.content fs with
    | (some e, fs') => (some e, fs')
    | (none, fs') => writeGeneratedFiles w rest fs'

/-- The fixed text of `Anchor.toml` before the interpolated program
identifier (workspace.ts lines 116-122), verbatim. -/
def anchorTomlPre : String :=
  "[toolchain]\n\n[features]\nseeds = false\nskip-lint = false\n\n[programs.localnet]\n"

/-- The fixed text of `Anchor.toml` after the program identifier
(workspace.ts lines 123-134), verbatim: program address, registry url,
provider defaults and the test script. -/
def anchorTomlPost : String :=
  " = \"Fg6PaFpoGXkYsidMpWTK6W2BeZ7FEfcYkg476zPFsLnS\"\n\n[registry]\nurl = \"https://api.apr.dev\"\n\n[provider]\ncluster = \"Localnet\"\nwallet = \"~/.config/solana/id.json\"\n\n[scripts]\ntest = \"pnpm exec ts-node -r tsconfig-paths/register tests/**/*.ts\"\n"

/-- The full `Anchor.toml` content synthesized by
`WorkspaceGenerator.generateAnchorConfig` (workspace.ts lines 113-138):
the program is named by the project name with every hyphen replaced by
an underscore. -/
def anchorTomlContent (projectName : String) : String :=
  anchorTomlPre ++ dashToUnderscore projectName ++ anchorTomlPost

/-- The `package.json` object literal built by
`WorkspaceGenerator.generatePackageJson` (workspace.ts lines 155-170),
field for field. -/
structure PackageJson where
  name : String
  version : String
  description : String
  scripts : List (String × String)
  dependencies : Dependencies
  devDependencies : Dependencies
  keywords : List String
  author : String
  license : String
deriving DecidableEq

/-- The `packageJson` object of workspace.ts lines 155-170: project
name, fixed version, fixed scripts, the generator's two dependency maps
for the same context, fixed metadata. -/
def packageJsonObject (cfg : WorkspaceConfig) : PackageJson :=
  let context := mkGeneratorContext cfg
  { name := cfg.projectName
    version := "0.1.0"
    description := "Anchor program generated with SolAnchorGen"
    scripts := [("build", "anchor build"), ("test", "anchor test"),
                ("deploy", "anchor deploy"), ("test:unit", "ts-node tests/**/*.ts")]
    dependencies := cfg.template.generator.getDependencies context
    devDependencies := cfg.template.generator.getDevDependencies context
    keywords := ["solana", "anchor", "blockchain"]
    author := ""
    license := "MIT" }

/-- One character under JSON string escaping. -/
def jsonEscapeChar (c : Char) : String :=
  if c = '"' then "\\\""
  else if c = '\\' then "\\\\"
  else if c = '\n' then "\\n"
  else if c = '\t' then "\\t"
  else if c = '\r' then "\\r"
  else String.singleton c

/-- A JSON string literal. -/
def jsonQuote (s : String) : String :=
  "\"" ++ String.join (s.data.map jsonEscapeChar) ++ "\""

/-- A string-valued JSON object at one nesting level, rendered as
`JSON.stringify(..., null, 2)` renders it. -/
def jsonObjOfPairs (ind : String) (ps : List (String × String)) : String :=
  if ps.isEmpty then "\x7b\x7d"
  else
    "\x7b\n" ++
    String.intercalate ",\n"
      (ps.map (fun p => ind ++ "  " ++ jsonQuote p.1 ++ ": " ++ jsonQuote p.2)) ++
    "\n" ++ ind ++ "\x7d"

/-- A JSON array of strings, rendered with 2-space indentation. -/
def jsonArrOfStrings (ind : String) (xs : List String) : String :=
  if xs.isEmpty then "[]"
  else
    "[\n" ++ String.intercalate ",\n" (xs.map (fun x => ind ++ "  " ++ jsonQuote x)) ++
    "\n" ++ ind ++ "]"

/-- `JSON.stringify(packageJson, null, 2)` for the fixed shape of the
manifest object. -/
def stringifyPackageJson (p : PackageJson) : String :=
  "\x7b\n" ++
  "  " ++ jsonQuote "name" ++ ": " ++ jsonQuote p.name ++ ",\n" ++
  "  " ++ jsonQuote "version" ++ ": " ++ jsonQuote p.version ++ ",\n" ++
  "  " ++ jsonQuote "description" ++ ": " ++ jsonQuote p.description ++ ",\n" ++
  "  " ++ jsonQuote "scripts" ++ ": " ++ jsonObjOfPairs "  " p.scripts ++ ",\n" ++
  "  " ++ jsonQuote "dependencies" ++ ": " ++ jsonObjOfPairs "  " p.dependencies ++ ",\n" ++
  "  " ++ jsonQuote "devDependencies" ++ ": " ++ jsonObjOfPairs "  " p.devDependencies ++ ",\n" ++
  "  " ++ jsonQuote "keywords" ++ ": " ++ jsonArrOfStrings "  " p.keywords ++ ",\n" ++
  "  " ++ jsonQuote "author" ++ ": " ++ jsonQuote p.author ++ ",\n" ++
  "  " ++ jsonQuote "license" ++ ": " ++ jsonQuote p.license ++ "\n" ++
  "\x7d"

/-- The `try` block of `WorkspaceGenerator.generate` (workspace.ts lines
44-75): directory skeleton, template files, `Anchor.toml`,
`package.json`, dependency installation — strictly in that order,
stopping at the first error with the file system as it then stands. -/
def generateSteps (w : World) (cfg : WorkspaceConfig) (fs0 : FS) :
    Option String × FS :=
  match createDirectoryStructure w cfg.projectPath fs0 with
  | (some e, fs1) => (some e, fs1)
  | (none, fs1) =>
    match writeGeneratedFiles w (cfg.template.generator.generate (mkGeneratorContext cfg)) fs1 with
    | (some e, fs2) => (some e, fs2)
    | (none, fs2) =>
      match fsWriteFile w (resolveSeg cfg.projectPath "Anchor.toml")
          (anchorTomlContent cfg.projectName) fs2 with
      | (some e, fs3) => (some e, fs3)
      | (none, fs3) =>
        match fsWriteFile w (resolveSeg cfg.projectPath "package.json")
            (stringifyPackageJson (packageJsonObject cfg)) fs3 with
        | (some e, fs4) => (some e, fs4)
        | (none, fs4) =>
          match w.installResult with
          | some e => (some e, fs4)
          | none => (none, fs4)

/-- `WorkspaceGenerator.cleanupPartialGeneration` (workspace.ts lines
189-198): if the destination exists, delete it recursively; an error
thrown by the deletion itself is caught and ignored. -/
def cleanupPartialGeneration (w : World) (projectPath : Path) (fs : FS) : FS :=
  if pathExists fs projectPath then
    match w.rmResult with
    | none => removeTree fs projectPath
    | some _ => fs
  else fs

/-- `WorkspaceGenerator.generate` (workspace.ts lines 41-81): run the
steps; on any failure run the cleanup and re-throw the original
error. -/
def WorkspaceGenerator.generate (w : World) (cfg : WorkspaceConfig) (fs : FS) :
    Except String Unit × FS :=
  match generateSteps w cfg fs with
  | (none, fs') => (.ok (), fs')
  | (some e, fs') => (.error e, cleanupPartialGeneration w cfg.projectPath fs')

/-- `newCommand` (new.ts lines 22-134): validate the project name, the
template name, fetch the template, extract and validate its options,
resolve the destination, then run the workspace generator.  Any thrown
error is reported and becomes the non-zero exit (modelled by the
`Except` result); validation failures leave the file system
untouched. -/
def newCommand (w : World) (fs : FS) (cwd : Path) (projectName template : String)
    (tokenDecimalsRaw : Option String) (reg : TemplateRegistry) :
    Except String Unit × FS :=
  match Validator.validateProjectName fs cwd projectName with
  | .err m => (.error m, fs)
  | .ok =>
    match Validator.validateTemplateName template reg with
    | .err m => (.error m, fs)
    | .ok =>
      match getTemplate reg template with
      | none => (.error ("Template \"" ++ template ++ "\" not found"), fs)
      | some tpl =>
        let templateOptions :=
          extractTemplateOptions (cliCommandOptions template tokenDecimalsRaw) tpl.options
        match validateExtractedOptions templateOptions tpl.options with
        | some m => (.error m, fs)
        | none =>
          WorkspaceGenerator.generate w
            ⟨projectName, resolveSeg cwd projectName, tpl, templateOptions⟩ fs

/-! ## Specification-side definitions and concrete sample values -/

/-- The project-name regex of the specification reading,
`^[a-zA-Z][a-zA-Z0-9_-]*$`: a leading letter followed by letters,
digits, hyphens and underscores.  Stated from the claim's words, to be
compared with the validator's two separate regex tests. -/
def specNamePattern (s : String) : Bool :=
  match s.data with
  | [] => false
  | c :: cs => c.isAlpha && cs.all validNameChar

/-- The claim's acceptance condition for `validateProjectName`: matches
the combined pattern, is at most 50 characters, is not case-insensitively
reserved, and no entry of that name exists in the working directory.
Stated from the claim's words. -/
def specValidProjectName (fs : FS) (cwd : Path) (name : String) : Prop :=
  specNamePattern name = true ∧ name.length ≤ 50 ∧
  reservedNames.contains (toLowerString name) = false ∧
  pathExists fs (resolveSeg cwd name) = false

/-- `w` with its rollback-deletion outcome replaced. -/
def withRm (w : World) (r : Option String) : World :=
  ⟨w.ensureDirResult, w.writeResult, w.installResult, r⟩

/-- A staking-template workspace config rooted at `root/my-stake`. -/
def stakeConfig : WorkspaceConfig :=
  ⟨"my-stake", ["root", "my-stake"], stakingTemplate, []⟩

/-- A vault-template workspace config rooted at `root/my-vault`. -/
def vaultConfig : WorkspaceConfig :=
  ⟨"my-vault", ["root", "my-vault"], vaultTemplate, []⟩

/-- A generation context for the staking template with no options. -/
def sampleCtx : GeneratorContext :=
  ⟨"my-stake", ["root", "my-stake"], []⟩

/-- A fault schedule in which writing the staking program file throws
`EACCES` and the rollback deletion itself throws `EPERM`. -/
def wRmFail : World :=
  ⟨fun _ => none,
   fun p =>
     if p == (["root", "my-stake", "programs", "my-stake", "src", "lib.rs"] : Path) then
       some "EACCES: permission denied"
     else none,
   none,
   some "EPERM: operation not permitted"⟩

/-- A fault schedule in which only the dependency installation fails. -/
def wInstallFail : World :=
  ⟨fun _ => none, fun _ => none,
   some "pnpm install exited with code 1. Check the output above for details.",
   none⟩

/-- A working directory already containing an entry named `test`. -/
def fsWithTestDir : FS := ⟨[["root", "test"]], []⟩

/-- A descriptor whose identifier is not yet registered. -/
def freshTemplate : Template := { stakingTemplate with id := "staking-v2" }

/-- A working directory already containing an entry named `my-vault`. -/
def fsWithVaultDir : FS := ⟨[["root", "my-vault"]], []⟩

/-! ## Shared lemmas -/

/-- A whitespace character is outside the name character class. -/
theorem jsWhitespace_not_validNameChar (c : Char) (h : jsWhitespace c = true) :
    validNameChar c = false := by
  simp only [jsWhitespace, Bool.or_eq_true, beq_iff_eq] at h
  rcases h with ((rfl | rfl) | rfl) | rfl <;> decide

/-- A letter is not whitespace. -/
theorem isAlpha_not_jsWhitespace (c : Char) (h : c.isAlpha = true) :
    jsWhitespace c = false := by
  by_contra hc
  simp only [Bool.not_eq_false] at hc
  simp only [jsWhitespace, Bool.or_eq_true, beq_iff_eq] at hc
  rcases hc with ((rfl | rfl) | rfl) | rfl <;> simp_all

/-- Exactly when `validateProjectName` answers `true`: each of the six
checks of validator.ts lines 113-147, in order. -/
theorem validateProjectName_ok_iff (fs : FS) (cwd : Path) (name : String) :
    Validator.validateProjectName fs cwd name = .ok ↔
      (name.data.all jsWhitespace = false ∧
       name.data.all validNameChar = true ∧
       startsWithLetter name = true ∧
       name.length ≤ 50 ∧
       reservedNames.contains (toLowerString name) = false ∧
       pathExists fs (resolveSeg cwd name) = false) := by
  unfold Validator.validateProjectName
  split_ifs with h1 h2 h3 h4 h5 h6 <;> simp_all

/-- A name the validator accepts is not empty and is none of the special
path segments. -/
theorem validName_ne_special (fs : FS) (cwd : Path) (name : String)
    (h : Validator.validateProjectName fs cwd name = .ok) :
    name ≠ "" ∧ name ≠ "." ∧ name ≠ ".." := by
  have h' := (validateProjectName_ok_iff fs cwd name).mp h
  refine ⟨?_, ?_, ?_⟩ <;> rintro rfl
  · exact absurd h'.2.2.1 (by decide)
  · exact absurd h'.2.1 (by decide)
  · exact absurd h'.2.1 (by decide)

/-- Appending `.ts` can produce none of the special path segments. -/
theorem ts_suffix_ne_special (name : String) :
    name ++ ".ts" ≠ "" ∧ name ++ ".ts" ≠ "." ∧ name ++ ".ts" ≠ ".." := by
  refine ⟨?_, ?_, ?_⟩ <;> intro h <;> have hl := congrArg String.length h <;>
    simp only [String.length_append, show (".ts" : String).length = 3 from rfl,
      show ("" : String).length = 0 from rfl, show ("." : String).length = 1 from rfl,
      show (".." : String).length = 2 from rfl] at hl <;> omega

/-- For an ordinary segment, `resolve` appends one component. -/
theorem resolveSeg_eq_append (base : Path) (seg : String)
    (h1 : seg ≠ "..") (h2 : seg ≠ ".") (h3 : seg ≠ "") :
    resolveSeg base seg = base ++ [seg] := by
  unfold resolveSeg
  simp [h1, h2, h3]

/-- Extending a path keeps it inside its root. -/
theorem withinRoot_append (root : Path) (l : List String) :
    withinRoot root (root ++ l) := ⟨l, rfl⟩

/-- The program source path stays inside the destination root. -/
theorem programLibPath_within (ctx : GeneratorContext)
    (h1 : ctx.projectName ≠ "..") (h2 : ctx.projectName ≠ ".") (h3 : ctx.projectName ≠ "") :
    withinRoot ctx.projectPath (programLibPath ctx) := by
  unfold programLibPath
  rw [resolveSeg_eq_append _ "programs" (by decide) (by decide) (by decide),
    resolveSeg_eq_append _ _ h1 h2 h3,
    resolveSeg_eq_append _ "src" (by decide) (by decide) (by decide),
    resolveSeg_eq_append _ "lib.rs" (by decide) (by decide) (by decide)]
  refine ⟨["programs", ctx.projectName, "src", "lib.rs"], ?_⟩
  simp

/-- The program manifest path stays inside the destination root. -/
theorem programCargoPath_within (ctx : GeneratorContext)
    (h1 : ctx.projectName ≠ "..") (h2 : ctx.projectName ≠ ".") (h3 : ctx.projectName ≠ "") :
    withinRoot ctx.projectPath (programCargoPath ctx) := by
  unfold programCargoPath
  rw [resolveSeg_eq_append _ "programs" (by decide) (by decide) (by decide),
    resolveSeg_eq_append _ _ h1 h2 h3,
    resolveSeg_eq_append _ "Cargo.toml" (by decide) (by decide) (by decide)]
  refine ⟨["programs", ctx.projectName, "Cargo.toml"], ?_⟩
  simp

/-- The test file path stays inside the destination root. -/
theorem testsFilePath_within (ctx : GeneratorContext) :
    withinRoot ctx.projectPath (testsFilePath ctx) := by
  obtain ⟨he, hd, hdd⟩ := ts_suffix_ne_special ctx.projectName
  unfold testsFilePath
  rw [resolveSeg_eq_append _ "tests" (by decide) (by decide) (by decide),
    resolveSeg_eq_append _ _ hdd hd he]
  refine ⟨["tests", ctx.projectName ++ ".ts"], ?_⟩
  simp

/-- The SDK file path stays inside the destination root. -/
theorem sdkFilePath_within (ctx : GeneratorContext) :
    withinRoot ctx.projectPath (sdkFilePath ctx) := by
  unfold sdkFilePath
  rw [resolveSeg_eq_append _ "app" (by decide) (by decide) (by decide),
    resolveSeg_eq_append _ "src" (by decide) (by decide) (by decide),
    resolveSeg_eq_append _ "index.ts" (by decide) (by decide) (by decide)]
  refine ⟨["app", "src", "index.ts"], ?_⟩
  simp

/-- The README path stays inside the destination root. -/
theorem readmeFilePath_within (ctx : GeneratorContext) :
    withinRoot ctx.projectPath (readmeFilePath ctx) := by
  unfold readmeFilePath
  rw [resolveSeg_eq_append _ "README.md" (by decide) (by decide) (by decide)]
  exact ⟨["README.md"], rfl⟩

/-- The tsconfig path stays inside the destination root. -/
theorem tsconfigFilePath_within (ctx : GeneratorContext) :
    withinRoot ctx.projectPath (tsconfigFilePath ctx) := by
  unfold tsconfigFilePath
  rw [resolveSeg_eq_append _ "tsconfig.json" (by decide) (by decide) (by decide)]
  exact ⟨["tsconfig.json"], rfl⟩

/-- The default registry holds exactly the six templates, in
registration order. -/
theorem defaultRegistry_templates :
    getAllTemplates defaultRegistry =
      [nftMintingTemplate, stakingTemplate, escrowTemplate, governanceTemplate,
       marketplaceTemplate, vaultTemplate] := rfl

/-- Every file emitted by a registered generator lands on one of the six
fixed paths. -/
theorem generator_paths (t : Template) (ht : t ∈ getAllTemplates defaultRegistry)
    (ctx : GeneratorContext) (f : GeneratedFile)
    (hf : f ∈ t.generator.generate ctx) :
    f.path = programLibPath ctx ∨ f.path = programCargoPath ctx ∨
    f.path = testsFilePath ctx ∨ f.path = sdkFilePath ctx ∨
    f.path = readmeFilePath ctx ∨ f.path = tsconfigFilePath ctx := by
  rw [defaultRegistry_templates] at ht
  simp only [List.mem_cons, List.not_mem_nil, or_false] at ht
  rcases ht with rfl | rfl | rfl | rfl | rfl | rfl <;>
    simp only [nftMintingTemplate, stakingTemplate, escrowTemplate, governanceTemplate,
      marketplaceTemplate, vaultTemplate, nftMintingGenerator, stakingGenerator,
      escrowGenerator, governanceGenerator, marketplaceGenerator, vaultGenerator,
      standardGenerate, stakingGenerateProgramCode, stakingGenerateCargoToml,
      stakingGenerateTests, stakingGenerateSdk, stakingGenerateReadme,
      stakingGenerateTsConfig, List.mem_cons, List.not_mem_nil, or_false] at hf <;>
    rcases hf with rfl | rfl | rfl | rfl | rfl | rfl <;> simp

/-! ## Claim C3 -/

/-- C3: for every generation context accepted by the CLI (validated
project name) and every file produced by any of the six registered
template generators, the file's path resolves inside the destination
root — no generated file is written outside the project directory. -/
theorem C3_generated_files_within_root (fs : FS) (cwd : Path) (name : String)
    (opts : OptionMap) (t : Template)
    (hval : Validator.validateProjectName fs cwd name = .ok)
    (ht : t ∈ getAllTemplates defaultRegistry)
    (f : GeneratedFile)
    (hf : f ∈ t.generator.generate ⟨name, resolveSeg cwd name, opts⟩) :
    withinRoot (resolveSeg cwd name) f.path := by
  obtain ⟨he, hd, hdd⟩ := validName_ne_special fs cwd name hval
  have hp := generator_paths t ht ⟨name, resolveSeg cwd name, opts⟩ f hf
  rcases hp with h | h | h | h | h | h <;> rw [h]
  · exact programLibPath_within ⟨name, resolveSeg cwd name, opts⟩ hdd hd he
  · exact programCargoPath_within ⟨name, resolveSeg cwd name, opts⟩ hdd hd he
  · exact testsFilePath_within ⟨name, resolveSeg cwd name, opts⟩
  · exact sdkFilePath_within ⟨name, resolveSeg cwd name, opts⟩
  · exact readmeFilePath_within ⟨name, resolveSeg cwd name, opts⟩
  · exact tsconfigFilePath_within ⟨name, resolveSeg cwd name, opts⟩

/-- Witness for C3 at a concrete input: the validated name `my-stake`,
the staking template, and its emitted program file. -/
theorem C3_witness :
    Validator.validateProjectName emptyFS ["root"] "my-stake" = .ok ∧
    withinRoot (resolveSeg ["root"] "my-stake")
      (stakingGenerateProgramCode ⟨"my-stake", resolveSeg ["root"] "my-stake", []⟩).path :=
  ⟨by decide,
   C3_generated_files_within_root emptyFS ["root"] "my-stake" [] stakingTemplate
     (by decide) (.tail _ (.head _))
     (stakingGenerateProgramCode ⟨"my-stake", resolveSeg ["root"] "my-stake", []⟩)
     (List.mem_cons_self _ _)⟩

/-! ## File-system lemmas -/

/-- After a recursive, forced deletion the deleted root no longer
exists. -/
theorem pathExists_removeTree (fs : FS) (p : Path) :
    pathExists (removeTree fs p) p = false := by
  unfold pathExists removeTree
  rw [Bool.or_eq_false_iff]
  constructor <;>
  · rw [List.any_eq_false]
    intro a ha hpa
    rw [List.mem_filter] at ha
    simp only [beq_iff_eq] at hpa
    rw [bne_iff_ne] at ha
    exact ha.2 (hpa ▸ List.take_length p)

/-- Reading back the file just written. -/
theorem lookupFile_writeFS_self (fs : FS) (p : Path) (c : String) :
    lookupFile (writeFS fs p c) p = some c := by
  simp [lookupFile, writeFS, List.find?]

/-- `find?` by path ignores the removal of entries at a different
path. -/
theorem find?_filter_other (l : List (Path × String)) (p p' : Path) (h : p ≠ p') :
    (l.filter (fun f => f.1 != p')).find? (fun f => f.1 == p) =
      l.find? (fun f => f.1 == p) := by
  induction l with
  | nil => rfl
  | cons a l ih =>
    by_cases hap : a.1 = p
    · have h1 : (a.1 != p') = true := by rw [bne_iff_ne]; rw [hap]; exact h
      have h2 : (a.1 == p) = true := by rw [beq_iff_eq]; exact hap
      simp [List.filter, List.find?, h1, h2]
    · have h2 : (a.1 == p) = false := by rw [beq_eq_false_iff_ne]; exact hap
      by_cases hap' : a.1 = p'
      · have h1 : (a.1 != p') = false := by simp [bne, hap']
        simp [List.filter, List.find?, h1, h2, ih]
      · have h1 : (a.1 != p') = true := by rw [bne_iff_ne]; exact hap'
        simp [List.filter, List.find?, h1, h2, ih]

/-- Writing at one path does not disturb the file stored at another. -/
theorem lookupFile_writeFS_other (fs : FS) (p p' : Path) (c : String) (h : p ≠ p') :
    lookupFile (writeFS fs p' c) p = lookupFile fs p := by
  have h1 : (p' == p) = false := by rw [beq_eq_false_iff_ne]; exact fun he => h he.symm
  simp only [lookupFile, writeFS, List.find?, h1]
  rw [find?_filter_other fs.files p p' h]

/-- The manifest paths at the destination root are distinct. -/
theorem anchor_ne_pkg (p : Path) :
    resolveSeg p "Anchor.toml" ≠ resolveSeg p "package.json" := by
  rw [resolveSeg_eq_append _ "Anchor.toml" (by decide) (by decide) (by decide),
    resolveSeg_eq_append _ "package.json" (by decide) (by decide) (by decide)]
  intro h
  have := List.append_cancel_left h
  simp at this

/-- Directory creation ignores the rollback outcome of the fault
schedule. -/
theorem fsEnsureDirectory_withRm (w : World) (r : Option String) (p : Path) (fs : FS) :
    fsEnsureDirectory (withRm w r) p fs = fsEnsureDirectory w p fs := rfl

/-- File writing ignores the rollback outcome of the fault schedule. -/
theorem fsWriteFile_withRm (w : World) (r : Option String) (p : Path) (c : String) (fs : FS) :
    fsWriteFile (withRm w r) p c fs = fsWriteFile w p c fs := rfl

/-- Installation ignores the rollback outcome of the fault schedule. -/
theorem installResult_withRm (w : World) (r : Option String) :
    (withRm w r).installResult = w.installResult := rfl

/-- Sequential directory creation ignores the rollback outcome. -/
theorem ensureDirs_withRm (w : World) (r : Option String) (ds : List Path) :
    ∀ fs, ensureDirs (withRm w r) ds fs = ensureDirs w ds fs := by
  induction ds with
  | nil => intro fs; rfl
  | cons d rest ih =>
    intro fs
    simp only [ensureDirs, fsEnsureDirectory_withRm]
    rcases fsEnsureDirectory w d fs with ⟨o, fs'⟩
    cases o <;> simp [ih]

/-- Sequential file writing ignores the rollback outcome. -/
theorem writeGeneratedFiles_withRm (w : World) (r : Option String)
    (l : List GeneratedFile) :
    ∀ fs, writeGeneratedFiles (withRm w r) l fs = writeGeneratedFiles w l fs := by
  induction l with
  | nil => intro fs; rfl
  | cons f rest ih =>
    intro fs
    simp only [writeGeneratedFiles, fsWriteFile_withRm]
    rcases fsWriteFile w f.path f.content fs with ⟨o, fs'⟩
    cases o <;> simp [ih]

/-- A fault schedule's rollback outcome does not influence the step
pipeline. -/
theorem generateSteps_withRm (w : World) (r : Option String)
    (cfg : WorkspaceConfig) (fs : FS) :
    generateSteps (withRm w r) cfg fs = generateSteps w cfg fs := by
  simp only [generateSteps, createDirectoryStructure, ensureDirs_withRm,
    writeGeneratedFiles_withRm, fsWriteFile_withRm, installResult_withRm]

/-- Decomposition of a successful generation run: every step succeeded
and the final file system is the package-manifest write applied after
the framework-manifest write. -/
theorem generate_ok_decomp (w : World) (cfg : WorkspaceConfig) (fs : FS)
    (h : (WorkspaceGenerator.generate w cfg fs).1 = .ok ()) :
    ∃ fs1 fs2,
      createDirectoryStructure w cfg.projectPath fs = (none, fs1) ∧
      writeGeneratedFiles w (cfg.template.generator.generate (mkGeneratorContext cfg)) fs1
        = (none, fs2) ∧
      w.writeResult (resolveSeg cfg.projectPath "Anchor.toml") = none ∧
      w.writeResult (resolveSeg cfg.projectPath "package.json") = none ∧
      w.installResult = none ∧
      (WorkspaceGenerator.generate w cfg fs).2 =
        writeFS
          (writeFS fs2 (resolveSeg cfg.projectPath "Anchor.toml")
            (anchorTomlContent cfg.projectName))
          (resolveSeg cfg.projectPath "package.json")
          (stringifyPackageJson (packageJsonObject cfg)) := by
  rcases h1 : createDirectoryStructure w cfg.projectPath fs with ⟨o1, fs1⟩
  cases o1 with
  | some e => simp [WorkspaceGenerator.generate, generateSteps, h1] at h
  | none =>
    rcases h2 : writeGeneratedFiles w
        (cfg.template.generator.generate (mkGeneratorContext cfg)) fs1 with ⟨o2, fs2⟩
    cases o2 with
    | some e => simp [WorkspaceGenerator.generate, generateSteps, h1, h2] at h
    | none =>
      rcases h3 : w.writeResult (resolveSeg cfg.projectPath "Anchor.toml") with _ | e3
      · rcases h4 : w.writeResult (resolveSeg cfg.projectPath "package.json") with _ | e4
        · rcases h5 : w.installResult with _ | e5
          · refine ⟨fs1, fs2, ?_, ?_, ?_, ?_, ?_, ?_⟩ <;>
              first
              | rfl
              | exact h1
              | exact h2
              | exact h3
              | exact h4
              | exact h5
              | simp [WorkspaceGenerator.generate, generateSteps, fsWriteFile, h1, h2, h3, h4, h5]
          · simp [WorkspaceGenerator.generate, generateSteps, fsWriteFile, h1, h2, h3, h4, h5] at h
        · simp [WorkspaceGenerator.generate, generateSteps, fsWriteFile, h1, h2, h3, h4] at h
      · simp [WorkspaceGenerator.generate, generateSteps, fsWriteFile, h1, h2, h3] at h

/-- Decomposition of a failed generation run: the re-raised error is the
first failing step's error and the final file system is the cleanup of
the file system at the failure point. -/
theorem generate_error_decomp (w : World) (cfg : WorkspaceConfig) (fs : FS) (e : String)
    (h : (WorkspaceGenerator.generate w cfg fs).1 = .error e) :
    (generateSteps w cfg fs).1 = some e ∧
    (WorkspaceGenerator.generate w cfg fs).2 =
      cleanupPartialGeneration w cfg.projectPath (generateSteps w cfg fs).2 := by
  rcases hg : generateSteps w cfg fs with ⟨o, fs'⟩
  cases o with
  | none =>
    exfalso
    simp [WorkspaceGenerator.generate, hg] at h
  | some e' =>
    have h2 : (WorkspaceGenerator.generate w cfg fs).1 = .error e' := by
      simp [WorkspaceGenerator.generate, hg]
    rw [h] at h2
    injection h2 with he
    subst he
    constructor
    · rfl
    · simp [WorkspaceGenerator.generate, hg]

/-- When the rollback deletion is not faulted, cleanup removes the
destination. -/
theorem cleanup_rm_ok (w : World) (hrm : w.rmResult = none) (p : Path) (fs : FS) :
    pathExists (cleanupPartialGeneration w p fs) p = false := by
  unfold cleanupPartialGeneration
  rw [hrm]
  by_cases hp : pathExists fs p = true
  · simp [hp, pathExists_removeTree]
  · simp only [Bool.not_eq_true] at hp
    simp [hp]

/-! ## Claim C1 -/

/-- Counterexample to C1 as stated: with a fault schedule in which
writing the staking program file throws `EACCES` and the rollback
deletion itself throws `EPERM`, `generate` re-raises the original
`EACCES` error, yet the destination path still exists on disk after the
call — the claim's unconditional "the destination path does not exist"
conjunct is false. -/
theorem C1_counterexample :
    (WorkspaceGenerator.generate wRmFail stakeConfig emptyFS).1
        = .error "EACCES: permission denied"
    ∧ pathExists (WorkspaceGenerator.generate wRmFail stakeConfig emptyFS).2
        stakeConfig.projectPath = true := by
  constructor <;> rfl

/-- C1 (amended): whenever a post-pre-flight step fails, the error the
caller sees is the first failing step's original error; replacing the
rollback-deletion outcome never changes the surfaced error (a cleanup
failure neither replaces nor suppresses it); and whenever the rollback
deletion is not faulted, the destination path does not exist after
`generate` returns. -/
theorem C1_rollback_semantics (w : World) (cfg : WorkspaceConfig) (fs : FS) (e : String)
    (h : (WorkspaceGenerator.generate w cfg fs).1 = .error e) :
    (generateSteps w cfg fs).1 = some e
    ∧ (∀ r, (WorkspaceGenerator.generate (withRm w r) cfg fs).1 = .error e)
    ∧ (w.rmResult = none →
        pathExists (WorkspaceGenerator.generate w cfg fs).2 cfg.projectPath = false) := by
  obtain ⟨h1, h2⟩ := generate_error_decomp w cfg fs e h
  refine ⟨h1, ?_, ?_⟩
  · intro r
    rcases hg : generateSteps w cfg fs with ⟨o, fs'⟩
    rw [hg] at h1
    simp only at h1
    subst h1
    have hg' : generateSteps (withRm w r) cfg fs = (some e, fs') := by
      rw [generateSteps_withRm, hg]
    simp [WorkspaceGenerator.generate, hg']
  · intro hrm
    rw [h2]
    exact cleanup_rm_ok w hrm cfg.projectPath _

/-- Witness for C1 at a concrete input: a failed dependency
installation with a healthy rollback — the original install error is
surfaced and the destination is gone. -/
theorem C1_witness :
    (WorkspaceGenerator.generate wInstallFail stakeConfig emptyFS).1
        = .error "pnpm install exited with code 1. Check the output above for details."
    ∧ pathExists (WorkspaceGenerator.generate wInstallFail stakeConfig emptyFS).2
        stakeConfig.projectPath = false :=
  ⟨rfl, (C1_rollback_semantics wInstallFail stakeConfig emptyFS _ rfl).2.2 rfl⟩

/-! ## Claim C2 -/

/-- Counterexample to C2 as stated: when the working directory already
contains an entry named `test`, a generation request for the project
name `test` does fail fast before any mutation — but with the
reserved-name error, not a path-collision error, because the validator
checks reserved names before probing for the path collision. -/
theorem C2_counterexample :
    pathExists fsWithTestDir (resolveSeg ["root"] "test") = true
    ∧ (newCommand allOkWorld fsWithTestDir ["root"] "test" "staking" none
        defaultRegistry).1 = .error "Project name \"test\" is reserved and cannot be used"
    ∧ "Project name \"test\" is reserved and cannot be used"
        ≠ "Directory \"test\" already exists in the current location"
    ∧ (newCommand allOkWorld fsWithTestDir ["root"] "test" "staking" none
        defaultRegistry).2 = fsWithTestDir := by
  refine ⟨rfl, rfl, ?_, rfl⟩
  decide

/-- C2 (amended): a request whose destination already exists always
fails before any file-system mutation (the file system is returned
untouched, so no rollback runs and a previous generation's output is
left intact), and when the project name passes the syntactic, length
and reserved-name checks the failure is the path-collision error. -/
theorem C2_collision_fail_fast (w : World) (fs : FS) (cwd : Path) (name tpl : String)
    (raw : Option String) (reg : TemplateRegistry)
    (hex : pathExists fs (resolveSeg cwd name) = true) :
    (newCommand w fs cwd name tpl raw reg).2 = fs
    ∧ (∃ m, (newCommand w fs cwd name tpl raw reg).1 = .error m)
    ∧ (name.data.all jsWhitespace = false →
       name.data.all validNameChar = true →
       startsWithLetter name = true →
       name.length ≤ 50 →
       reservedNames.contains (toLowerString name) = false →
       (newCommand w fs cwd name tpl raw reg).1 =
         .error ("Directory \"" ++ name ++ "\" already exists in the current location")) := by
  rcases hval : Validator.validateProjectName fs cwd name with _ | m
  · exfalso
    have := (validateProjectName_ok_iff fs cwd name).mp hval
    rw [this.2.2.2.2.2] at hex
    exact Bool.false_ne_true hex
  · refine ⟨by simp [newCommand, hval], ⟨m, by simp [newCommand, hval]⟩, ?_⟩
    intro hws hchars hletter hlen hres
    have hlen' : ¬(name.length > 50) := by omega
    have hres' : toLowerString name ∉ reservedNames := by simpa using hres
    have hcoll : Validator.validateProjectName fs cwd name =
        .err ("Directory \"" ++ name ++ "\" already exists in the current location") := by
      unfold Validator.validateProjectName
      simp [hws, hchars, hletter, hlen', hres', hex]
    rw [hval] at hcoll
    injection hcoll with hm
    subst hm
    simp [newCommand, hval]

/-- Witness for C2 at a concrete input: a second request for the valid
name `my-vault` whose destination already exists fails with the
path-collision error and leaves the file system untouched. -/
theorem C2_witness :
    pathExists fsWithVaultDir (resolveSeg ["root"] "my-vault") = true
    ∧ (newCommand allOkWorld fsWithVaultDir ["root"] "my-vault" "staking" none
        defaultRegistry).1 =
      .error "Directory \"my-vault\" already exists in the current location" :=
  ⟨rfl,
   (C2_collision_fail_fast allOkWorld fsWithVaultDir ["root"] "my-vault" "staking" none
     defaultRegistry rfl).2.2 (by decide) (by decide) (by decide) (by decide) (by decide)⟩

/-! ## Claim C7 -/

/-- C7: every successful generation leaves, at the destination root, an
`Anchor.toml` whose program identifier is the project name with every
hyphen replaced by an underscore, surrounded by the fixed registry and
provider defaults (`anchorTomlPre`/`anchorTomlPost`); in particular
`my-vault` yields `my_vault`. -/
theorem C7_anchor_config (w : World) (cfg : WorkspaceConfig) (fs : FS)
    (h : (WorkspaceGenerator.generate w cfg fs).1 = .ok ()) :
    lookupFile (WorkspaceGenerator.generate w cfg fs).2
        (resolveSeg cfg.projectPath "Anchor.toml")
      = some (anchorTomlContent cfg.projectName)
    ∧ anchorTomlContent cfg.projectName
        = anchorTomlPre ++ dashToUnderscore cfg.projectName ++ anchorTomlPost
    ∧ dashToUnderscore "my-vault" = "my_vault" := by
  obtain ⟨fs1, fs2, h1, h2, h3, h4, h5, hfinal⟩ := generate_ok_decomp w cfg fs h
  refine ⟨?_, rfl, by decide⟩
  rw [hfinal]
  rw [lookupFile_writeFS_other _ _ _ _ (anchor_ne_pkg cfg.projectPath)]
  exact lookupFile_writeFS_self _ _ _

/-- Witness for C7 at a concrete input: a successful vault generation
for `my-vault`. -/
theorem C7_witness :
    (WorkspaceGenerator.generate allOkWorld vaultConfig emptyFS).1 = .ok ()
    ∧ lookupFile (WorkspaceGenerator.generate allOkWorld vaultConfig emptyFS).2
        (resolveSeg vaultConfig.projectPath "Anchor.toml")
      = some (anchorTomlContent "my-vault") :=
  ⟨rfl, (C7_anchor_config allOkWorld vaultConfig emptyFS rfl).1⟩

/-! ## Claim C8 -/

/-- C8: every successful generation leaves, at the destination root, a
`package.json` that is the serialization of the manifest object whose
name is the project name, whose version and script entries are fixed,
and whose dependency and devDependency maps are exactly what the
selected generator's `getDependencies` and `getDevDependencies` return
for the same generation context. -/
theorem C8_package_manifest (w : World) (cfg : WorkspaceConfig) (fs : FS)
    (h : (WorkspaceGenerator.generate w cfg fs).1 = .ok ()) :
    lookupFile (WorkspaceGenerator.generate w cfg fs).2
        (resolveSeg cfg.projectPath "package.json")
      = some (stringifyPackageJson (packageJsonObject cfg))
    ∧ (packageJsonObject cfg).name = cfg.projectName
    ∧ (packageJsonObject cfg).version = "0.1.0"
    ∧ (packageJsonObject cfg).scripts
        = [("build", "anchor build"), ("test", "anchor test"),
           ("deploy", "anchor deploy"), ("test:unit", "ts-node tests/**/*.ts")]
    ∧ (packageJsonObject cfg).dependencies
        = cfg.template.generator.getDependencies (mkGeneratorContext cfg)
    ∧ (packageJsonObject cfg).devDependencies
        = cfg.template.generator.getDevDependencies (mkGeneratorContext cfg) := by
  obtain ⟨fs1, fs2, h1, h2, h3, h4, h5, hfinal⟩ := generate_ok_decomp w cfg fs h
  refine ⟨?_, rfl, rfl, rfl, rfl, rfl⟩
  rw [hfinal]
  exact lookupFile_writeFS_self _ _ _

/-- Witness for C8 at a concrete input: a successful staking generation
for `my-stake`. -/
theorem C8_witness :
    (WorkspaceGenerator.generate allOkWorld stakeConfig emptyFS).1 = .ok ()
    ∧ lookupFile (WorkspaceGenerator.generate allOkWorld stakeConfig emptyFS).2
        (resolveSeg stakeConfig.projectPath "package.json")
      = some (stringifyPackageJson (packageJsonObject stakeConfig)) :=
  ⟨rfl, (C8_package_manifest allOkWorld stakeConfig emptyFS rfl).1⟩

/-! ## Claim C5 -/

/-- C5: registering a descriptor whose identifier is already present
throws the duplicate-template error and leaves the registry's contents
unchanged; registering a descriptor with a fresh identifier appends
it. -/
theorem C5_registry_uniqueness (reg : TemplateRegistry) (t : Template) :
    (hasTemplate reg t.id = true →
      registerTemplate reg t =
        (reg, some ("Template with id \"" ++ t.id ++ "\" is already registered")))
    ∧ (hasTemplate reg t.id = false →
      registerTemplate reg t = (⟨reg.templates ++ [t]⟩, none)) := by
  constructor <;> intro h <;> simp [registerTemplate, h]

/-- Witness for C5 at concrete inputs: re-registering `staking` in the
default registry throws and returns the registry untouched;
registering a fresh identifier appends it. -/
theorem C5_witness :
    (hasTemplate defaultRegistry stakingTemplate.id = true
      ∧ registerTemplate defaultRegistry stakingTemplate =
          (defaultRegistry, some "Template with id \"staking\" is already registered"))
    ∧ (hasTemplate defaultRegistry freshTemplate.id = false
      ∧ registerTemplate defaultRegistry freshTemplate =
          (⟨defaultRegistry.templates ++ [freshTemplate]⟩, none)) :=
  ⟨⟨rfl, (C5_registry_uniqueness defaultRegistry stakingTemplate).1 rfl⟩,
   ⟨rfl, (C5_registry_uniqueness defaultRegistry freshTemplate).2 rfl⟩⟩

/-! ## Claim C6 -/

/-- C6: for every registered template, the generator's output is a pure
function of the generation context — two calls on contexts with the
same project name, path and resolved option map produce identical file
lists (same paths, same content, same order); in particular two
successive calls on one fixed context agree. -/
theorem C6_generator_deterministic (t : Template)
    (_ht : t ∈ getAllTemplates defaultRegistry)
    (c₁ c₂ : GeneratorContext)
    (h1 : c₁.projectName = c₂.projectName)
    (h2 : c₁.projectPath = c₂.projectPath)
    (h3 : c₁.options = c₂.options) :
    t.generator.generate c₁ = t.generator.generate c₂ := by
  obtain ⟨n₁, p₁, o₁⟩ := c₁
  obtain ⟨n₂, p₂, o₂⟩ := c₂
  simp only at h1 h2 h3
  subst h1
  subst h2
  subst h3
  rfl

/-- Witness for C6 at a concrete input: the staking template on a fixed
context. -/
theorem C6_witness :
    stakingTemplate ∈ getAllTemplates defaultRegistry
    ∧ stakingTemplate.generator.generate sampleCtx
        = stakingTemplate.generator.generate sampleCtx := by
  have hm : stakingTemplate ∈ getAllTemplates defaultRegistry := by
    rw [defaultRegistry_templates]
    exact List.mem_cons_of_mem _ (List.mem_cons_self _ _)
  exact ⟨hm, C6_generator_deterministic stakingTemplate hm sampleCtx sampleCtx rfl rfl rfl⟩

/-! ## Claim C4 -/

/-- C4: for the staking `tokenDecimals` option, a request with no
explicit flag resolves the option to 9 (via Commander's declared string
default `'9'`), an explicit `6` resolves to 6, and an explicit `19` is
rejected with the invalid-option-value error before generation starts —
the file system is returned untouched for every fault schedule. -/
theorem C4_token_decimals (w : World) (fs : FS) (cwd : Path)
    (h : pathExists fs (resolveSeg cwd "my-stake") = false) :
    extractTemplateOptions (cliCommandOptions "staking" none) stakingTemplate.options
      = [("tokenDecimals", .num 9)]
    ∧ extractTemplateOptions (cliCommandOptions "staking" (some "6")) stakingTemplate.options
      = [("tokenDecimals", .num 6)]
    ∧ newCommand w fs cwd "my-stake" "staking" (some "19") defaultRegistry
      = (.error "Invalid value for option \"tokenDecimals\"", fs) := by
  have hval : Validator.validateProjectName fs cwd "my-stake" = .ok := by
    rw [validateProjectName_ok_iff]
    exact ⟨by decide, by decide, by decide, by decide, by decide, h⟩
  refine ⟨by decide, by decide, ?_⟩
  unfold newCommand
  rw [hval]
  rfl

/-- Witness for C4 at a concrete input: an empty working directory. -/
theorem C4_witness :
    pathExists emptyFS (resolveSeg ["root"] "my-stake") = false
    ∧ newCommand allOkWorld emptyFS ["root"] "my-stake" "staking" (some "19")
        defaultRegistry
      = (.error "Invalid value for option \"tokenDecimals\"", emptyFS) :=
  ⟨rfl, (C4_token_decimals allOkWorld emptyFS ["root"] rfl).2.2⟩

/-! ## Claim C9 -/

/-- C9: a falsy supplied `tokenDecimals` value (such as the number 0,
which the 0-18 predicate accepts) is dropped by
`extractTemplateOptions`, and the staking generator's
`options.tokenDecimals || 9` substitutes the default whenever the
stored value is 0 or absent, so the emitted program text declares
`const TOKEN_DECIMALS: u8 = 9` — and for every in-range resolved value
the interpolated text is never `0`. -/
theorem C9_zero_decimals (v : JsValue) (hv : truthy v = false) (options : OptionMap)
    (h0 : omGet options "tokenDecimals" = .num 0 ∨ omGet options "tokenDecimals" = .undefined)
    (name : String) (pp : Path) :
    extractTemplateOptions (fun k => if k == "tokenDecimals" then v else .undefined)
        stakingTemplate.options = []
    ∧ stakingDecimals options = .num 9
    ∧ (stakingGenerateProgramCode ⟨name, pp, options⟩).content
        = stakingLibPre ++ "9" ++ stakingLibMid ++ dashToUnderscore name ++ stakingLibTail
    ∧ (∀ n : Int, 0 ≤ n → n ≤ 18 → jsDisplay (jsOr (.num n) (.num 9)) ≠ "0") := by
  have hd : stakingDecimals options = .num 9 := by
    unfold stakingDecimals
    rcases h0 with h0 | h0 <;> rw [h0] <;> rfl
  refine ⟨?_, hd, ?_, ?_⟩
  · simp [extractTemplateOptions, stakingTemplate, tokenDecimalsOption, jsOr, hv]
  · show stakingLibText (dashToUnderscore name) (jsDisplay (stakingDecimals options)) = _
    rw [hd]
    rfl
  · intro n h0n h18
    interval_cases n <;> decide

/-- Witness for C9 at a concrete input: an explicit `tokenDecimals` of
the number 0. -/
theorem C9_witness :
    truthy (JsValue.num 0) = false
    ∧ omGet [("tokenDecimals", JsValue.num 0)] "tokenDecimals" = .num 0
    ∧ (stakingGenerateProgramCode
        ⟨"my-stake", ["root", "my-stake"], [("tokenDecimals", JsValue.num 0)]⟩).content
      = stakingLibPre ++ "9" ++ stakingLibMid ++ dashToUnderscore "my-stake" ++ stakingLibTail :=
  ⟨rfl, rfl,
   (C9_zero_decimals (.num 0) rfl [("tokenDecimals", .num 0)] (Or.inl rfl)
     "my-stake" ["root", "my-stake"]).2.2.1⟩

/-! ## Claim C10 -/

/-- C10: `validateProjectName` answers `true` exactly when the name
matches `^[a-zA-Z][a-zA-Z0-9_-]*$`, has length at most 50, is not
case-insensitively reserved, and no entry of that name exists in the
working directory (otherwise it returns one of its error-message
strings, by the shape of its result type). -/
theorem C10_validate_project_name (fs : FS) (cwd : Path) (name : String) :
    Validator.validateProjectName fs cwd name = .ok ↔
      specValidProjectName fs cwd name := by
  rw [validateProjectName_ok_iff]
  unfold specValidProjectName
  constructor
  · rintro ⟨hws, hchars, hletter, hlen, hres, hex⟩
    refine ⟨?_, hlen, hres, hex⟩
    unfold specNamePattern
    unfold startsWithLetter at hletter
    cases hd : name.data with
    | nil =>
      rw [hd] at hletter
      simp at hletter
    | cons c cs =>
      rw [hd] at hletter hchars
      have hca : c.isAlpha = true := hletter
      rw [List.all_cons, Bool.and_eq_true] at hchars
      show (c.isAlpha && cs.all validNameChar) = true
      rw [Bool.and_eq_true]
      exact ⟨hca, hchars.2⟩
  · rintro ⟨hpat, hlen, hres, hex⟩
    unfold specNamePattern at hpat
    cases hd : name.data with
    | nil =>
      rw [hd] at hpat
      simp at hpat
    | cons c cs =>
      rw [hd] at hpat
      have hpat' : (c.isAlpha && cs.all validNameChar) = true := hpat
      rw [Bool.and_eq_true] at hpat'
      obtain ⟨hca, hcs⟩ := hpat'
      have hvc : validNameChar c = true := by
        simp [validNameChar, Char.isAlphanum, hca]
      refine ⟨?_, ?_, ?_, hlen, hres, hex⟩
      · simp [List.all_cons, isAlpha_not_jsWhitespace c hca]
      · rw [List.all_cons, Bool.and_eq_true]
        exact ⟨hvc, hcs⟩
      · unfold startsWithLetter
        rw [hd]
        exact hca

end SolAnchorGen
